import Mathlib

/-!
Verification of the core simulation of a 2D vehicle game written in Rust
(`src/main.rs`): 2D vector helpers, a bicycle-style car model advanced once
per frame by `Car.update`, and a tile-layer table deriving tile-sheet
coordinates.  Floating-point state is embedded as real numbers; the tile
layer is integer data and stays fully computable.
-/

/-- Planar vector over the reals, the embedding of SFML's `Vector2f`. -/
structure V2 where
  x : ℝ
  y : ℝ

theorem V2.ext_iff2 (a b : V2) : a = b ↔ a.x = b.x ∧ a.y = b.y := by
  cases a; cases b; simp

/-- componentwise sum, `a + b` on `Vector2f`. -/
def V2.add (a b : V2) : V2 := ⟨a.x + b.x, a.y + b.y⟩

/-- componentwise difference, `a - b` on `Vector2f`. -/
def V2.sub (a b : V2) : V2 := ⟨a.x - b.x, a.y - b.y⟩

/-- scalar multiple, `v * s` (or `s * v`) on `Vector2f`. -/
def V2.scale (v : V2) (s : ℝ) : V2 := ⟨v.x * s, v.y * s⟩

/-- scalar division, `v / s` on `Vector2f`. -/
noncomputable def V2.divScalar (v : V2) (s : ℝ) : V2 := ⟨v.x / s, v.y / s⟩

/-- Degrees to radians, `d2r`: `deg / 360.0 * (PI * 2.0)`. -/
noncomputable def d2r (deg : ℝ) : ℝ := deg / 360 * (Real.pi * 2)

/-- Radians to degrees, `r2d`: `(rad / (PI * 2.0)) * 360.0`. -/
noncomputable def r2d (rad : ℝ) : ℝ := rad / (Real.pi * 2) * 360

/-- Dot product, `v2_dot`. -/
def v2_dot (a b : V2) : ℝ := a.x * b.x + a.y * b.y

/-- Euclidean length, `v2_length`: `sqrt (dot v v)`. -/
noncomputable def v2_length (v : V2) : ℝ := Real.sqrt (v2_dot v v)

/-- Two-argument arctangent as used by `f32::atan2`;
`Complex.arg ⟨x, y⟩` has exactly its piecewise definition and range. -/
noncomputable def atan2 (y x : ℝ) : ℝ := Complex.arg ⟨x, y⟩

/-- Angle from `b` to `a`, `v2_angle_to_point`: `atan2` of `a - b`. -/
noncomputable def v2_angle_to_point (a b : V2) : ℝ :=
  let dis := a.sub b
  atan2 dis.y dis.x

/-- Unit heading vector, `v2_set_rotation`: `(cos rad, sin rad)`. -/
noncomputable def v2_set_rotation (rad : ℝ) : V2 := ⟨Real.cos rad, Real.sin rad⟩

/-- Rotation of a vector by radians, `v2_rotated` (2D rotation matrix). -/
noncomputable def v2_rotated (v : V2) (b : ℝ) : V2 :=
  ⟨v.x * Real.cos b - v.y * Real.sin b, v.x * Real.sin b + v.y * Real.cos b⟩

/-- The `Car` struct: kinematic state, tunables and input flags. -/
structure Car where
  position : V2
  velocity : V2
  acceleration : V2
  force : V2
  back_wheel : V2
  front_wheel : V2
  axel : ℝ
  speed : ℝ
  friction : ℝ
  drag : ℝ
  car_angle : ℝ
  steer_angle : ℝ
  is_moving : Bool
  is_reversing : Bool
  is_turning_left : Bool
  is_turning_right : Bool

/-- Constructor `Car::new(pos)`: the source's literal field values. -/
def Car.new (pos : V2) : Car :=
  { position := pos
    velocity := ⟨0, 0⟩
    acceleration := ⟨0, 0⟩
    force := ⟨0, 0⟩
    back_wheel := ⟨0, 0⟩
    front_wheel := ⟨0, 0⟩
    axel := 45
    speed := 750
    friction := -0.99
    drag := -0.0055
    car_angle := 0
    steer_angle := 75
    is_moving := false
    is_reversing := false
    is_turning_left := false
    is_turning_right := false }

/-- Embedding of `Car::steering(delta)`: wheel anchor points from `position`, `car_angle`
and `axel`; back advances by `velocity*delta`, front by
`rotated(velocity, steer_angle)*delta`; heading becomes
`angle_to_point front back`. -/
noncomputable def Car.steering (c : Car) (delta : ℝ) : Car :=
  let front := c.position.add ((v2_set_rotation c.car_angle).scale (c.axel / 2))
  let back := c.position.sub ((v2_set_rotation c.car_angle).scale (c.axel / 2))
  let back := back.add (c.velocity.scale delta)
  let front := front.add ((v2_rotated c.velocity c.steer_angle).scale delta)
  { c with
    car_angle := v2_angle_to_point front back
    front_wheel := front
    back_wheel := back }

/-- Embedding of `Car::screen_wrap(width, height, buffer)`: the four sequential `if`
statements on the mutated coordinates, with `screen_edge = 0`. -/
noncomputable def Car.screen_wrap (c : Car) (width height buffer : ℝ) : Car :=
  let screen_edge : ℝ := 0
  let px := if c.position.x > width + buffer then screen_edge - buffer else c.position.x
  let px := if px < screen_edge - buffer then width + buffer else px
  let py := if c.position.y > height + buffer then screen_edge - buffer else c.position.y
  let py := if py < screen_edge - buffer then height + buffer else py
  { c with position := ⟨px, py⟩ }

/-- Embedding of `Car::update_forces(_delta)`: speed dead-zone snap, friction and drag
forces, low-speed friction tripling, and accumulation into `acceleration`. -/
noncomputable def Car.update_forces (c : Car) (_delta : ℝ) : Car :=
  let speed := v2_length c.velocity
  let velocity := if speed < 20 then (⟨0, 0⟩ : V2) else c.velocity
  let f_force := velocity.scale c.friction
  let d_force := (velocity.scale speed).scale c.drag
  let f_force := if speed < 100 then f_force.scale 3 else f_force
  let force := f_force.add d_force
  let total := force.divScalar 1
  { c with
    velocity := velocity
    force := force
    acceleration := c.acceleration.add total }

/-- First block of `Car::update`: turn signal `t` from the turning flags,
then `steer_angle = t * d2r(15.0)`. -/
noncomputable def Car.resolve_steer (c : Car) : Car :=
  let t : ℝ := 0
  let t := if c.is_turning_left then t - 1 else t
  let t := if c.is_turning_right then t + 1 else t
  { c with steer_angle := t * d2r 15 }

/-- Second block of `Car::update`: `acceleration` overwritten by the drive
branch on `is_moving`, then overwritten again when `is_reversing`. -/
noncomputable def Car.resolve_drive (c : Car) : Car :=
  let c :=
    if c.is_moving then
      { c with acceleration := (v2_set_rotation c.car_angle).scale c.speed }
    else
      { c with acceleration := (⟨0, 0⟩ : V2) }
  if c.is_reversing then
    { c with acceleration := (V2.mk 1 0).add ((v2_set_rotation c.car_angle).scale (-600)) }
  else
    c

/-- Embedding of `Car::update(dt)`: steering input, drive resolution, `steering`,
`update_forces`, `screen_wrap(1280, 896, 25)`, then Euler integration and
the `acceleration *= 0.0` reset, in the source's order. -/
noncomputable def Car.update (c : Car) (dt : ℝ) : Car :=
  let c := c.resolve_steer
  let c := c.resolve_drive
  let c := c.steering dt
  let c := c.update_forces dt
  let c := c.screen_wrap 1280 896 25
  let c := { c with velocity := c.velocity.add (c.acceleration.scale dt) }
  let c := { c with position := c.position.add (c.velocity.scale dt) }
  { c with acceleration := c.acceleration.scale 0 }

/-- The `track` layer array from `TileLayer::new`. -/
def track : List Int :=
  [0, 0, 0, 0, 0, 0, 0, 0, 0, 0, 0, 149, 185, 185, 185, 185, 185, 185, 131, 0, 0, 202, 94,
   183, 183, 183, 183, 76, 166, 0, 0, 307, 271, 0, 0, 0, 0, 202, 166, 0, 0, 202, 93, 185,
   185, 185, 185, 75, 166, 0, 0, 148, 183, 183, 183, 183, 183, 183, 130, 0, 0, 0, 0, 0, 0,
   0, 0, 0, 0, 0]

/-- The `grass` layer array from `TileLayer::new`. -/
def grass : List Int :=
  [102, 281, 281, 281, 281, 281, 281, 281, 281, 84, 30, 70, 70, 70, 70, 70, 70, 70, 70,
   66, 30, 70, 70, 70, 70, 70, 70, 70, 70, 66, 30, 70, 70, 70, 70, 70, 70, 70, 70, 66, 30,
   70, 70, 70, 70, 70, 70, 70, 70, 66, 30, 70, 70, 70, 70, 70, 70, 70, 70, 66, 12, 209,
   209, 209, 209, 209, 209, 209, 209, 317]

/-- The `TileLayer` struct: two 70-cell layers and their derived info. -/
structure TileLayer where
  rows : Int
  cols : Int
  tile_sheet_cols : Int
  tile_sheets : List (List Int)
  tile_sheets_info : List (List (Bool × Int × Int × Int × Int))
deriving DecidableEq, Repr

/-- Constructor `TileLayer::new()`: fixed dimensions, the two layer arrays, and
all-`(false,0,0,0,0)` derived info. -/
def TileLayer.new : TileLayer :=
  { rows := 7
    cols := 10
    tile_sheet_cols := 18
    tile_sheets := [grass, track]
    tile_sheets_info :=
      [List.replicate 70 (false, 0, 0, 0, 0), List.replicate 70 (false, 0, 0, 0, 0)] }

/-- Accessor `TileLayer::get_info()`. -/
def TileLayer.get_info (tl : TileLayer) : List (List (Bool × Int × Int × Int × Int)) :=
  tl.tile_sheets_info

/-- The two inner loops of `TileLayer::set_up()` acting on layer `i`'s info
row: for each `x < cols`, `y < rows`, `coord = x + cols*y`; a positive cell
value `num` of `sheet` stores `(true, x, y, num % tile_sheet_cols,
num / tile_sheet_cols)` at `coord` (Rust's truncating `%` and `/` on `i32`);
other cells are skipped. -/
def TileLayer.set_up_layer (tl : TileLayer) (sheet : List Int)
    (layer : List (Bool × Int × Int × Int × Int)) :
    List (Bool × Int × Int × Int × Int) :=
  (List.range tl.cols.toNat).foldl (fun layer x =>
    (List.range tl.rows.toNat).foldl (fun layer y =>
      let coord : Int := (x : Int) + tl.cols * (y : Int)
      match sheet[coord.toNat]? with
      | none => layer
      | some num =>
        if num ≤ 0 then layer
        else
          let tx := num.tmod tl.tile_sheet_cols
          let ty := num.tdiv tl.tile_sheet_cols
          layer.set coord.toNat (true, (x : Int), (y : Int), tx, ty))
      layer)
    layer

/-- Embedding of `TileLayer::set_up()`: the outer loop `for i in 0..2`, updating layer
`i`'s row of `tile_sheets_info` in place from layer `i` of `tile_sheets`. -/
def TileLayer.set_up (tl : TileLayer) : TileLayer :=
  { tl with
    tile_sheets_info :=
      (List.range 2).foldl (fun info i =>
        info.set i (tl.set_up_layer (tl.tile_sheets.getD i []) (info.getD i [])))
        tl.tile_sheets_info }

/-- The concrete value of `tile_sheets_info` after `TileLayer.new.set_up`,
tabulated for use in the tile-layer proofs. -/
def set_up_info : List (List (Bool × Int × Int × Int × Int)) :=
[[(true, 0, 0, 12, 5),
  (true, 1, 0, 11, 15),
  (true, 2, 0, 11, 15),
  (true, 3, 0, 11, 15),
  (true, 4, 0, 11, 15),
  (true, 5, 0, 11, 15),
  (true, 6, 0, 11, 15),
  (true, 7, 0, 11, 15),
  (true, 8, 0, 11, 15),
  (true, 9, 0, 12, 4),
  (true, 0, 1, 12, 1),
  (true, 1, 1, 16, 3),
  (true, 2, 1, 16, 3),
  (true, 3, 1, 16, 3),
  (true, 4, 1, 16, 3),
  (true, 5, 1, 16, 3),
  (true, 6, 1, 16, 3),
  (true, 7, 1, 16, 3),
  (true, 8, 1, 16, 3),
  (true, 9, 1, 12, 3),
  (true, 0, 2, 12, 1),
  (true, 1, 2, 16, 3),
  (true, 2, 2, 16, 3),
  (true, 3, 2, 16, 3),
  (true, 4, 2, 16, 3),
  (true, 5, 2, 16, 3),
  (true, 6, 2, 16, 3),
  (true, 7, 2, 16, 3),
  (true, 8, 2, 16, 3),
  (true, 9, 2, 12, 3),
  (true, 0, 3, 12, 1),
  (true, 1, 3, 16, 3),
  (true, 2, 3, 16, 3),
  (true, 3, 3, 16, 3),
  (true, 4, 3, 16, 3),
  (true, 5, 3, 16, 3),
  (true, 6, 3, 16, 3),
  (true, 7, 3, 16, 3),
  (true, 8, 3, 16, 3),
  (true, 9, 3, 12, 3),
  (true, 0, 4, 12, 1),
  (true, 1, 4, 16, 3),
  (true, 2, 4, 16, 3),
  (true, 3, 4, 16, 3),
  (true, 4, 4, 16, 3),
  (true, 5, 4, 16, 3),
  (true, 6, 4, 16, 3),
  (true, 7, 4, 16, 3),
  (true, 8, 4, 16, 3),
  (true, 9, 4, 12, 3),
  (true, 0, 5, 12, 1),
  (true, 1, 5, 16, 3),
  (true, 2, 5, 16, 3),
  (true, 3, 5, 16, 3),
  (true, 4, 5, 16, 3),
  (true, 5, 5, 16, 3),
  (true, 6, 5, 16, 3),
  (true, 7, 5, 16, 3),
  (true, 8, 5, 16, 3),
  (true, 9, 5, 12, 3),
  (true, 0, 6, 12, 0),
  (true, 1, 6, 11, 11),
  (true, 2, 6, 11, 11),
  (true, 3, 6, 11, 11),
  (true, 4, 6, 11, 11),
  (true, 5, 6, 11, 11),
  (true, 6, 6, 11, 11),
  (true, 7, 6, 11, 11),
  (true, 8, 6, 11, 11),
  (true, 9, 6, 11, 17)],
 [(false, 0, 0, 0, 0),
  (false, 0, 0, 0, 0),
  (false, 0, 0, 0, 0),
  (false, 0, 0, 0, 0),
  (false, 0, 0, 0, 0),
  (false, 0, 0, 0, 0),
  (false, 0, 0, 0, 0),
  (false, 0, 0, 0, 0),
  (false, 0, 0, 0, 0),
  (false, 0, 0, 0, 0),
  (false, 0, 0, 0, 0),
  (true, 1, 1, 5, 8),
  (true, 2, 1, 5, 10),
  (true, 3, 1, 5, 10),
  (true, 4, 1, 5, 10),
  (true, 5, 1, 5, 10),
  (true, 6, 1, 5, 10),
  (true, 7, 1, 5, 10),
  (true, 8, 1, 5, 7),
  (false, 0, 0, 0, 0),
  (false, 0, 0, 0, 0),
  (true, 1, 2, 4, 11),
  (true, 2, 2, 4, 5),
  (true, 3, 2, 3, 10),
  (true, 4, 2, 3, 10),
  (true, 5, 2, 3, 10),
  (true, 6, 2, 3, 10),
  (true, 7, 2, 4, 4),
  (true, 8, 2, 4, 9),
  (false, 0, 0, 0, 0),
  (false, 0, 0, 0, 0),
  (true, 1, 3, 1, 17),
  (true, 2, 3, 1, 15),
  (false, 0, 0, 0, 0),
  (false, 0, 0, 0, 0),
  (false, 0, 0, 0, 0),
  (false, 0, 0, 0, 0),
  (true, 7, 3, 4, 11),
  (true, 8, 3, 4, 9),
  (false, 0, 0, 0, 0),
  (false, 0, 0, 0, 0),
  (true, 1, 4, 4, 11),
  (true, 2, 4, 3, 5),
  (true, 3, 4, 5, 10),
  (true, 4, 4, 5, 10),
  (true, 5, 4, 5, 10),
  (true, 6, 4, 5, 10),
  (true, 7, 4, 3, 4),
  (true, 8, 4, 4, 9),
  (false, 0, 0, 0, 0),
  (false, 0, 0, 0, 0),
  (true, 1, 5, 4, 8),
  (true, 2, 5, 3, 10),
  (true, 3, 5, 3, 10),
  (true, 4, 5, 3, 10),
  (true, 5, 5, 3, 10),
  (true, 6, 5, 3, 10),
  (true, 7, 5, 3, 10),
  (true, 8, 5, 4, 7),
  (false, 0, 0, 0, 0),
  (false, 0, 0, 0, 0),
  (false, 0, 0, 0, 0),
  (false, 0, 0, 0, 0),
  (false, 0, 0, 0, 0),
  (false, 0, 0, 0, 0),
  (false, 0, 0, 0, 0),
  (false, 0, 0, 0, 0),
  (false, 0, 0, 0, 0),
  (false, 0, 0, 0, 0),
  (false, 0, 0, 0, 0)]]

/-- At-rest car placed outside the screen-wrap bounds: position `(2000, 100)`,
zero velocity, all input flags false. -/
def car_far : Car := { Car.new ⟨100, 100⟩ with position := ⟨2000, 100⟩ }

/-- Car with both `is_moving` and `is_reversing` held. -/
def car_both : Car := { Car.new ⟨100, 100⟩ with is_moving := true, is_reversing := true }

/-- Car placed just past the upper wrap bounds on both axes. -/
def car_wrap_hi : Car := { Car.new ⟨100, 100⟩ with position := ⟨1306, 922⟩ }

/-- Car placed just past the lower wrap bounds on both axes. -/
def car_wrap_lo : Car := { Car.new ⟨100, 100⟩ with position := ⟨-26, -26⟩ }

/-- Car with both turning flags held. -/
def car_turn_both : Car :=
  { Car.new ⟨100, 100⟩ with is_turning_left := true, is_turning_right := true }

theorem Car.resolve_drive_eq (c : Car) :
    c.resolve_drive =
      { c with
        acceleration :=
          if c.is_reversing then (V2.mk 1 0).add ((v2_set_rotation c.car_angle).scale (-600))
          else if c.is_moving then (v2_set_rotation c.car_angle).scale c.speed
          else ⟨0, 0⟩ } := by
  unfold Car.resolve_drive
  cases hm : c.is_moving <;> cases hr : c.is_reversing <;> simp [hm, hr]

theorem update_steer_angle (c : Car) (dt : ℝ) :
    (c.update dt).steer_angle = (c.resolve_steer).steer_angle := by
  simp [Car.update, Car.resolve_drive_eq, Car.steering, Car.update_forces, Car.screen_wrap]

theorem update_at_rest (c : Car) (dt : ℝ)
    (hm : c.is_moving = false) (hr : c.is_reversing = false)
    (hv : c.velocity = ⟨0, 0⟩)
    (hx1 : -25 ≤ c.position.x) (hx2 : c.position.x ≤ 1305)
    (hy1 : -25 ≤ c.position.y) (hy2 : c.position.y ≤ 921) :
    (c.update dt).position = c.position ∧ (c.update dt).velocity = ⟨0, 0⟩ ∧
    (c.update dt).is_moving = false ∧ (c.update dt).is_reversing = false := by
  have hw1 : ¬(1305 < c.position.x) := not_lt.mpr (by linarith)
  have hw2 : ¬(c.position.x < -25) := not_lt.mpr (by linarith)
  have hw3 : ¬(921 < c.position.y) := not_lt.mpr (by linarith)
  have hw4 : ¬(c.position.y < -25) := not_lt.mpr (by linarith)
  refine ⟨?_, ?_, ?_, ?_⟩ <;>
    norm_num [Car.update, Car.resolve_steer, Car.resolve_drive_eq, Car.steering,
      Car.update_forces, Car.screen_wrap, hm, hr, hv, hw1, hw2, hw3, hw4,
      V2.add, V2.sub, V2.scale, V2.divScalar, v2_length, v2_dot, v2_rotated]

set_option maxRecDepth 100000 in
theorem set_up_new_eq :
    TileLayer.new.set_up = { TileLayer.new with tile_sheets_info := set_up_info } := by
  decide

/-- C1 (corrected): the claim quantifies over every at-rest state, but
`screen_wrap` teleports an out-of-bounds position even at rest: from
position `(2000, 100)` with zero velocity and no drive flags, one
`update` call moves `position.x` to `-25`. -/
theorem c1_drift_out_of_bounds_counterexample :
    car_far.is_moving = false ∧ car_far.is_reversing = false ∧
    car_far.velocity = ⟨0, 0⟩ ∧
    (([1] : List ℝ).foldl Car.update car_far).position ≠ car_far.position := by
  refine ⟨rfl, rfl, rfl, ?_⟩
  simp only [List.foldl_cons, List.foldl_nil]
  intro hcontra
  have hx := congrArg (fun v => v.x) hcontra
  norm_num [Car.update, Car.resolve_steer, Car.resolve_drive_eq, Car.steering,
    Car.update_forces, Car.screen_wrap, car_far, Car.new,
    V2.add, V2.sub, V2.scale, V2.divScalar, v2_length, v2_dot, v2_rotated] at hx

/-- C1 (amended): for every state with `is_moving = false`,
`is_reversing = false`, `velocity = (0,0)`, and `position` inside the wrap
bounds `[-25, 1305] × [-25, 921]`, any sequence of `Car::update` calls with
arbitrary `dt` values leaves `position` unchanged (no drift at rest). -/
theorem c1_no_drift_at_rest_in_bounds :
    ∀ (dts : List ℝ) (c : Car),
      c.is_moving = false → c.is_reversing = false → c.velocity = ⟨0, 0⟩ →
      -25 ≤ c.position.x → c.position.x ≤ 1305 →
      -25 ≤ c.position.y → c.position.y ≤ 921 →
      (dts.foldl Car.update c).position = c.position := by
  intro dts
  induction dts with
  | nil => intro c _ _ _ _ _ _ _; rfl
  | cons d rest ih =>
    intro c hm hr hv hx1 hx2 hy1 hy2
    have hstep := update_at_rest c d hm hr hv hx1 hx2 hy1 hy2
    have hpos := hstep.1
    simp only [List.foldl_cons]
    rw [ih (c.update d) hstep.2.2.1 hstep.2.2.2 hstep.2.1
      (by rw [hpos]; exact hx1) (by rw [hpos]; exact hx2)
      (by rw [hpos]; exact hy1) (by rw [hpos]; exact hy2), hpos]

theorem c1_no_drift_witness :
    (Car.new ⟨100, 100⟩).is_moving = false ∧
    (([1, 2] : List ℝ).foldl Car.update (Car.new ⟨100, 100⟩)).position =
      (Car.new ⟨100, 100⟩).position :=
  ⟨rfl, c1_no_drift_at_rest_in_bounds [1, 2] (Car.new ⟨100, 100⟩) rfl rfl rfl
    (by norm_num [Car.new]) (by norm_num [Car.new])
    (by norm_num [Car.new]) (by norm_num [Car.new])⟩

/-- C2: for every state and every `dt`, `Car::steering` sets
`back_wheel = position - (axel/2)*fromRotation(old car_angle) + velocity*dt`,
`front_wheel = position + (axel/2)*fromRotation(old car_angle) +
rotated(velocity, steer_angle)*dt`, and sets `car_angle` to
`angle_to_point front_wheel back_wheel`, the `atan2` of their difference. -/
theorem c2_steering_geometry (c : Car) (dt : ℝ) :
    (c.steering dt).back_wheel =
      (c.position.sub ((v2_set_rotation c.car_angle).scale (c.axel / 2))).add
        (c.velocity.scale dt) ∧
    (c.steering dt).front_wheel =
      (c.position.add ((v2_set_rotation c.car_angle).scale (c.axel / 2))).add
        ((v2_rotated c.velocity c.steer_angle).scale dt) ∧
    (c.steering dt).car_angle =
      v2_angle_to_point (c.steering dt).front_wheel (c.steering dt).back_wheel ∧
    (c.steering dt).car_angle =
      atan2 (((c.steering dt).front_wheel).sub ((c.steering dt).back_wheel)).y
        (((c.steering dt).front_wheel).sub ((c.steering dt).back_wheel)).x :=
  ⟨rfl, rfl, rfl, rfl⟩

/-- C3: `Car::update_forces` snaps `velocity` to `(0,0)` when
`spd = length(velocity) < 20`, sets `force` to the friction force
(`velocity * friction`, tripled when `spd < 100`) plus the drag force
(`velocity * spd * drag`), and adds `force / 1` into `acceleration`
(accumulating on the existing drive/reverse acceleration). -/
theorem c3_update_forces_spec (c : Car) (dt : ℝ) :
    (c.update_forces dt).velocity =
      (if v2_length c.velocity < 20 then (⟨0, 0⟩ : V2) else c.velocity) ∧
    (c.update_forces dt).force =
      (let spd := v2_length c.velocity
       let v := if spd < 20 then (⟨0, 0⟩ : V2) else c.velocity
       let fric := if spd < 100 then (v.scale c.friction).scale 3 else v.scale c.friction
       fric.add ((v.scale spd).scale c.drag)) ∧
    (c.update_forces dt).acceleration =
      c.acceleration.add ((c.update_forces dt).force.divScalar 1) :=
  ⟨rfl, rfl, rfl⟩

/-- C4: the drive-resolution step of `Car::update` leaves
`acceleration = (1,0) + fromRotation(car_angle)*(-600)` whenever
`is_reversing` holds (overwriting the `is_moving` branch, which itself
overwrites with `fromRotation(car_angle)*speed`, else `(0,0)`); when both
flags are true the reverse value wins. -/
theorem c4_drive_resolution (c : Car) :
    ((c.resolve_drive).acceleration =
      if c.is_reversing then (V2.mk 1 0).add ((v2_set_rotation c.car_angle).scale (-600))
      else if c.is_moving then (v2_set_rotation c.car_angle).scale c.speed
      else ⟨0, 0⟩) ∧
    (c.is_moving = true → c.is_reversing = true →
      (c.resolve_drive).acceleration =
        (V2.mk 1 0).add ((v2_set_rotation c.car_angle).scale (-600))) := by
  refine ⟨?_, ?_⟩
  · rw [Car.resolve_drive_eq]
  · intro hm hr
    rw [Car.resolve_drive_eq]
    simp [hr]

theorem c4_drive_resolution_witness :
    (car_both.resolve_drive).acceleration =
      (V2.mk 1 0).add ((v2_set_rotation car_both.car_angle).scale (-600)) :=
  (c4_drive_resolution car_both).2 rfl rfl

/-- C5: a call to `Car::update` ends with `velocity += acceleration*dt` and
`position += velocity*dt` on the post-`screen_wrap` state, then resets
`acceleration` to `(0,0)`; only `velocity` persists across frames. -/
theorem c5_integration_step (c : Car) (dt : ℝ) :
    (c.update dt).velocity =
      (let a :=
        ((((c.resolve_steer).resolve_drive).steering dt).update_forces dt).screen_wrap
          1280 896 25
       a.velocity.add (a.acceleration.scale dt)) ∧
    (c.update dt).position =
      (let a :=
        ((((c.resolve_steer).resolve_drive).steering dt).update_forces dt).screen_wrap
          1280 896 25
       a.position.add ((a.velocity.add (a.acceleration.scale dt)).scale dt)) ∧
    (c.update dt).acceleration = ⟨0, 0⟩ := by
  refine ⟨rfl, rfl, ?_⟩
  show ((((((c.resolve_steer).resolve_drive).steering dt).update_forces dt).screen_wrap
      1280 896 25).acceleration).scale 0 = (⟨0, 0⟩ : V2)
  simp [V2.scale]

/-- C6: with `width = 1280`, `height = 896`, `buffer = 25`, `screen_wrap`
sends `position.x = 1306` to `-25` and `position.x = -26` to `1305`, and
symmetrically sends `position.y = 922` to `-25` and `position.y = -26`
to `921`. -/
theorem c6_screen_wrap_values (c : Car) :
    (c.position.x = 1306 → ((c.screen_wrap 1280 896 25).position).x = -25) ∧
    (c.position.x = -26 → ((c.screen_wrap 1280 896 25).position).x = 1305) ∧
    (c.position.y = 922 → ((c.screen_wrap 1280 896 25).position).y = -25) ∧
    (c.position.y = -26 → ((c.screen_wrap 1280 896 25).position).y = 921) := by
  refine ⟨?_, ?_, ?_, ?_⟩ <;> intro h <;> simp only [Car.screen_wrap, h] <;> norm_num

theorem c6_screen_wrap_values_witness :
    ((car_wrap_hi.screen_wrap 1280 896 25).position).x = -25 ∧
    ((car_wrap_hi.screen_wrap 1280 896 25).position).y = -25 ∧
    ((car_wrap_lo.screen_wrap 1280 896 25).position).x = 1305 ∧
    ((car_wrap_lo.screen_wrap 1280 896 25).position).y = 921 :=
  ⟨(c6_screen_wrap_values car_wrap_hi).1 rfl,
   (c6_screen_wrap_values car_wrap_hi).2.2.1 rfl,
   (c6_screen_wrap_values car_wrap_lo).2.1 rfl,
   (c6_screen_wrap_values car_wrap_lo).2.2.2 rfl⟩

/-- C7: after `TileLayer::set_up`, every cell whose source value `num` is
positive holds `(true, x, y, num % 18, num / 18)` with `x = coord % cols`,
`y = coord / cols` (so `coord = x + cols*y`), every cell with `num <= 0`
stays `present = false`, and in particular the cell holding `149` derives
sheet column `5` and sheet row `8`. -/
theorem c7_set_up_derivation :
    (∀ i : Fin 2, ∀ c : Fin 70,
      (0 < (TileLayer.new.tile_sheets.getD i []).getD c 0 →
        (TileLayer.new.set_up.tile_sheets_info.getD i []).getD c (false, 0, 0, 0, 0) =
          (true, ((c : Nat) % 10 : Int), ((c : Nat) / 10 : Int),
            ((TileLayer.new.tile_sheets.getD i []).getD c 0).tmod 18,
            ((TileLayer.new.tile_sheets.getD i []).getD c 0).tdiv 18)) ∧
      ((TileLayer.new.tile_sheets.getD i []).getD c 0 ≤ 0 →
        ((TileLayer.new.set_up.tile_sheets_info.getD i []).getD c (false, 0, 0, 0, 0)).1 =
          false)) ∧
    (TileLayer.new.tile_sheets.getD 1 []).getD 11 0 = 149 ∧
    (TileLayer.new.set_up.tile_sheets_info.getD 1 []).getD 11 (false, 0, 0, 0, 0) =
      (true, 1, 1, 5, 8) := by
  rw [set_up_new_eq]
  refine ⟨?_, ?_, ?_⟩ <;> decide

theorem c7_set_up_derivation_witness :
    0 < (TileLayer.new.tile_sheets.getD 1 []).getD 11 0 ∧
    (TileLayer.new.set_up.tile_sheets_info.getD 1 []).getD 11 (false, 0, 0, 0, 0) =
      (true, ((11 : Nat) % 10 : Int), ((11 : Nat) / 10 : Int),
        ((TileLayer.new.tile_sheets.getD 1 []).getD 11 0).tmod 18,
        ((TileLayer.new.tile_sheets.getD 1 []).getD 11 0).tdiv 18) :=
  ⟨by decide, (c7_set_up_derivation.1 1 11).1 (by decide)⟩

set_option maxRecDepth 100000 in
/-- C8: starting from a freshly constructed `TileLayer`, running `set_up`
twice leaves `tile_sheets_info` identical to running it once. -/
theorem c8_set_up_idempotent : TileLayer.new.set_up.set_up = TileLayer.new.set_up := by
  rw [set_up_new_eq]
  decide

/-- C9: after every `Car::update` call, `steer_angle` is `-d2r(15)`, `0`, or
`d2r(15)` (both turning flags held give `0`), and `update` never reads the
incoming `steer_angle` (so the constructor's `75.0` is overwritten before
any use). -/
theorem c9_steer_angle_values (c : Car) (dt : ℝ) :
    ((c.update dt).steer_angle = -(d2r 15) ∨ (c.update dt).steer_angle = 0 ∨
      (c.update dt).steer_angle = d2r 15) ∧
    (c.is_turning_left = true → c.is_turning_right = true →
      (c.update dt).steer_angle = 0) ∧
    (∀ a : ℝ, Car.update { c with steer_angle := a } dt = c.update dt) := by
  refine ⟨?_, ?_, fun a => rfl⟩
  · rw [update_steer_angle]
    unfold Car.resolve_steer
    cases hl : c.is_turning_left <;> cases hr : c.is_turning_right
    · right; left; simp
    · right; right; simp
    · left; simp
    · right; left; simp
  · intro hl hr
    rw [update_steer_angle]
    unfold Car.resolve_steer
    simp [hl, hr]

theorem c9_steer_angle_values_witness : (car_turn_both.update 1).steer_angle = 0 :=
  (c9_steer_angle_values car_turn_both 1).2.1 rfl rfl

/-- C10: `Car::screen_wrap` modifies only `position`: every other field of
the state is unchanged for every state and every bounds triple. -/
theorem c10_screen_wrap_frame (c : Car) (w h b : ℝ) :
    (c.screen_wrap w h b).velocity = c.velocity ∧
    (c.screen_wrap w h b).acceleration = c.acceleration ∧
    (c.screen_wrap w h b).force = c.force ∧
    (c.screen_wrap w h b).front_wheel = c.front_wheel ∧
    (c.screen_wrap w h b).back_wheel = c.back_wheel ∧
    (c.screen_wrap w h b).car_angle = c.car_angle ∧
    (c.screen_wrap w h b).steer_angle = c.steer_angle ∧
    (c.screen_wrap w h b).axel = c.axel ∧
    (c.screen_wrap w h b).speed = c.speed ∧
    (c.screen_wrap w h b).friction = c.friction ∧
    (c.screen_wrap w h b).drag = c.drag ∧
    (c.screen_wrap w h b).is_moving = c.is_moving ∧
    (c.screen_wrap w h b).is_reversing = c.is_reversing ∧
    (c.screen_wrap w h b).is_turning_left = c.is_turning_left ∧
    (c.screen_wrap w h b).is_turning_right = c.is_turning_right :=
  ⟨rfl, rfl, rfl, rfl, rfl, rfl, rfl, rfl, rfl, rfl, rfl, rfl, rfl, rfl, rfl⟩
